import Mathlib

/-!
Verification of the Google Sheets update subsystem
(`src/server/src/workflow-management/integrations/gsheet.ts`).

The embedding models:
* JavaScript objects holding row data as association lists (`JObj`), which
  preserves property insertion order — the order `Object.keys` / `Object.values`
  observe;
* the run store and robot store as lookup functions inside an `Env`;
* the outcome of the external `sheets.spreadsheets.values.append` call as an
  `Except String Nat` field of the environment (a thrown error, or the HTTP
  response status);
* each fallible TypeScript function as a function returning its thrown-or-normal
  outcome explicitly (`Except String Unit`), instrumented with the observable
  that the claims talk about (the 2-D value array handed to the append call).

JavaScript truthiness on optional strings (`undefined`, `null`, `""` are falsy)
is modelled by `truthyS`.
-/

set_option autoImplicit false

namespace GSheet

/-- A JSON-ish cell value as it appears in run output rows. -/
inductive JVal where
  | str (s : String)
  | num (n : Int)
deriving DecidableEq

/-- A JavaScript object used as a data row: an association list of properties in
insertion order (`Object.keys` returns the keys in this order, `Object.values`
the values). -/
abbrev JObj := List (String × JVal)

/-- Property access `o[k]` on an association-list object: the value at the first
matching key, or `none` for `undefined`. -/
def alookup {α : Type} (k : String) : List (String × α) → Option α
  | [] => none
  | (k', v) :: rest => if k = k' then some v else alookup k rest

/-- JavaScript truthiness of an optional string: `undefined` / `null` (`none`)
and the empty string are falsy. -/
def truthyS : Option String → Bool
  | none => false
  | some s => s ≠ ""

/-- The fields of a run record (`Run.toJSON()`) read by `updateGoogleSheet`. -/
structure RunRecord where
  status : String
  serializableOutput : Option (List (String × List JObj))
  binaryOutput : Option (List (String × String))

/-- The `integrations.google_sheets` sub-object of a robot record. -/
structure GoogleSheetsIntegration where
  email : Option String
  sheet_id : Option String
  sheet_name : Option String
  access_token : Option String
  refresh_token : Option String
deriving DecidableEq

/-- A robot's `integrations` object: the `google_sheets` sub-object plus any
other integration fields, which this subsystem never touches. -/
structure Integrations where
  google_sheets : Option GoogleSheetsIntegration
  other : List (String × String)
deriving DecidableEq

/-- The fields of a robot record read by this subsystem. -/
structure RobotRecord where
  integrations : Option Integrations
deriving DecidableEq

/-- Optional chaining `robot.integrations?.google_sheets`. -/
def gsOf (r : RobotRecord) : Option GoogleSheetsIntegration :=
  r.integrations.bind (fun i => i.google_sheets)

/-- `robot.integrations?.google_sheets?.email`. -/
def gsEmail (r : RobotRecord) : Option String := (gsOf r).bind (fun g => g.email)

/-- `robot.integrations?.google_sheets?.sheet_id`. -/
def gsSheetId (r : RobotRecord) : Option String := (gsOf r).bind (fun g => g.sheet_id)

/-- `robot.integrations?.google_sheets?.sheet_name`. -/
def gsSheetName (r : RobotRecord) : Option String := (gsOf r).bind (fun g => g.sheet_name)

/-- `robot.integrations?.google_sheets?.access_token`. -/
def gsAccessToken (r : RobotRecord) : Option String := (gsOf r).bind (fun g => g.access_token)

/-- `robot.integrations?.google_sheets?.refresh_token`. -/
def gsRefreshToken (r : RobotRecord) : Option String := (gsOf r).bind (fun g => g.refresh_token)

/-- The robot's integration fields other than `google_sheets`. -/
def otherIntegrations (r : RobotRecord) : List (String × String) :=
  (r.integrations.map (fun i => i.other)).getD []

/-- The external collaborators and the outcome of the external append call:
the run store (lookup by `runId`), the robot store (lookup by
`recording_meta.id`), and what `sheets.spreadsheets.values.append` does —
either throw (`error`) or return a response with the given HTTP status. -/
structure Env where
  runStore : String → Option RunRecord
  robotStore : String → Option RobotRecord
  appendResult : Except String Nat

/-- The payload of an OAuth `tokens` refresh event. -/
structure TokenPayload where
  access_token : Option String
  refresh_token : Option String
deriving DecidableEq

/-- The `oauth2Client.on("tokens", ...)` handler of `writeDataToSheet`
(gsheet.ts lines 122–147): copy the robot's current `integrations` (or start
from `{}`), default `google_sheets` to an all-`null` object if absent, then
overwrite `refresh_token` / `access_token` with the event's values when the
event supplies them (truthily), and persist the result. -/
def onTokensHandler (robot : RobotRecord) (tokens : TokenPayload) : RobotRecord :=
  let updatedIntegrations : Integrations :=
    robot.integrations.getD { google_sheets := none, other := [] }
  let gs : GoogleSheetsIntegration :=
    updatedIntegrations.google_sheets.getD
      { email := none, sheet_id := none, sheet_name := none,
        access_token := none, refresh_token := none }
  let gs : GoogleSheetsIntegration :=
    if truthyS tokens.refresh_token then { gs with refresh_token := tokens.refresh_token } else gs
  let gs : GoogleSheetsIntegration :=
    if truthyS tokens.access_token then { gs with access_token := tokens.access_token } else gs
  { robot with integrations := some { updatedIntegrations with google_sheets := some gs } }

/-- `writeDataToSheet` (gsheet.ts lines 88–172): look the robot up again, throw
if it is missing or if either stored token is missing, otherwise perform the
append call; a non-200 response is only logged (no throw), and any caught error
is logged and rethrown. Returns the thrown-or-normal outcome together with
whether the append call was reached. -/
def writeDataToSheet (env : Env) (robotId : String) (spreadsheetId : String)
    (data : List (List JVal)) : Except String Unit × Bool :=
  match env.robotStore robotId with
  | none => (Except.error ("Robot not found for robotId: " ++ robotId), false)
  | some plainRobot =>
    let access_token := gsAccessToken plainRobot
    let refresh_token := gsRefreshToken plainRobot
    if !truthyS access_token || !truthyS refresh_token then
      (Except.error "Google Sheets access not configured for user", false)
    else
      match env.appendResult with
      | Except.error e => (Except.error e, true)
      | Except.ok _status => (Except.ok (), true)

/-- The body of `updateGoogleSheet` inside its `try` (gsheet.ts lines 19–80):
look the run up (throw if missing); when its status is `"success"`, pick the
data rows from `serializableOutput["item-0"]` when structured output exists,
else a one-row `Screenshot URL` placeholder when `binaryOutput["item-0"]`
exists, else `[]`; look the robot up (throw if missing); when `email` and
`sheet_id` are both (truthily) configured, build
`[Object.keys(data[0]), ...data.map(Object.values)]` — accessing `data[0]`
throws a `TypeError` when `data` is `undefined` or empty — and hand it to
`writeDataToSheet`, whose error would propagate. Returns the thrown-or-normal
outcome together with the value array handed to the append call, if the append
call was reached. -/
def updateGoogleSheetBody (env : Env) (robotId : String) (runId : String) :
    Except String Unit × Option (List (List JVal)) :=
  match env.runStore runId with
  | none => (Except.error ("Run not found for runId: " ++ runId), none)
  | some plainRun =>
    if plainRun.status = "success" then
      let hasStructured : Bool :=
        plainRun.serializableOutput.isSome &&
          (plainRun.serializableOutput.getD []).length > 0
      let binaryItem : Option String := plainRun.binaryOutput.bind (alookup "item-0")
      let data : Option (List JObj) :=
        if hasStructured then alookup "item-0" (plainRun.serializableOutput.getD [])
        else if truthyS binaryItem then
          some [[("Screenshot URL", JVal.str (binaryItem.getD ""))]]
        else some []
      match env.robotStore robotId with
      | none => (Except.error ("Robot not found for robotId: " ++ robotId), none)
      | some plainRobot =>
        let email := gsEmail plainRobot
        let spreadsheetId := gsSheetId plainRobot
        if truthyS email && truthyS spreadsheetId then
          match data with
          | none => (Except.error "TypeError: Cannot convert undefined or null to object", none)
          | some [] => (Except.error "TypeError: Cannot convert undefined or null to object", none)
          | some (row0 :: rest) =>
            let headers : List String := row0.map Prod.fst
            let rows : List (List JVal) := (row0 :: rest).map (fun row => row.map Prod.snd)
            let outputData : List (List JVal) := headers.map JVal.str :: rows
            let written := writeDataToSheet env robotId (spreadsheetId.getD "") outputData
            (written.1, if written.2 then some outputData else none)
        else (Except.ok (), none)
    else (Except.ok (), none)

/-- `updateGoogleSheet` (gsheet.ts lines 18–86): the body above wrapped in the
function's own `try`/`catch`; the `catch` only logs (`console.error`) and falls
off the end, so the function returns normally on every path. -/
def updateGoogleSheet (env : Env) (robotId : String) (runId : String) :
    Except String Unit × Option (List (List JVal)) :=
  let r := updateGoogleSheetBody env robotId runId
  (match r.1 with
   | Except.ok _ => Except.ok ()
   | Except.error _ => Except.ok (), r.2)

/-- The status of an update task (`"pending" | "completed" | "failed"`). -/
inductive TaskStatus where
  | pending
  | completed
  | failed
deriving DecidableEq

/-- One entry of the `googleSheetUpdateTasks` registry. -/
structure GoogleSheetUpdateTask where
  robotId : String
  runId : String
  status : TaskStatus
  retries : Nat
deriving DecidableEq

/-- `MAX_RETRIES` (gsheet.ts line 13). -/
def MAX_RETRIES : Nat := 5

/-- The fixed inter-scan delay of the processor loop, in milliseconds
(`setTimeout(resolve, 5000)`, gsheet.ts line 215). -/
def pollDelayMs : Nat := 5000

/-- The `googleSheetUpdateTasks` registry: a JavaScript object keyed by
`runId`, modelled as an association list in property insertion order. -/
abbrev Registry := List (String × GoogleSheetUpdateTask)

/-- One pass of the processor's `for (const runId in googleSheetUpdateTasks)`
body for a single entry (gsheet.ts lines 183–206), with the attempt
(`await updateGoogleSheet(...)`) abstracted as its thrown-or-normal outcome:
a non-pending task is left untouched; a pending task is attempted, and on a
normal return its entry is deleted, while on a throw its retries are
incremented when `retries < MAX_RETRIES` and otherwise its status is set to
`failed`. -/
def procEntry (attempt : String → String → Except String Unit)
    (e : String × GoogleSheetUpdateTask) : Option (String × GoogleSheetUpdateTask) :=
  if e.2.status = TaskStatus.pending then
    match attempt e.2.robotId e.2.runId with
    | Except.ok _ => none
    | Except.error _ =>
      if e.2.retries < MAX_RETRIES then
        some (e.1, { e.2 with retries := e.2.retries + 1 })
      else
        some (e.1, { e.2 with status := TaskStatus.failed })
  else some e

/-- One full scan of the registry (one iteration of the processor's `while`):
each entry is processed once by `procEntry`, and only its own entry is
mutated or deleted, so the scan is the entry-wise action on the registry. -/
def scanStep (attempt : String → String → Except String Unit) (reg : Registry) : Registry :=
  reg.filterMap (procEntry attempt)

/-- The scan's `hasPendingTasks` flag: some examined entry had status
`pending`; since no entry's status is changed before it is examined, this is
exactly "some entry was pending at the start of the scan". -/
def hasPendingTasks (reg : Registry) : Bool :=
  reg.any (fun e => e.2.status = TaskStatus.pending)

/-- `processGoogleSheetUpdates` (gsheet.ts lines 174–217) with explicit fuel:
scan, then exit (`break`) when the scan found no pending task, else wait
`pollDelayMs` and scan again. `none` means the fuel ran out before the loop
exited; `some reg` is the registry when the loop exits. -/
def processGoogleSheetUpdates (attempt : String → String → Except String Unit) :
    Nat → Registry → Option Registry
  | 0, _ => none
  | fuel + 1, reg =>
    let reg' := scanStep attempt reg
    if hasPendingTasks reg then processGoogleSheetUpdates attempt fuel reg'
    else some reg'

/-- Modelled from the spec: the enqueue interface is not among the provided
source files (only the registry and the processor are). Per the spec it
"accepts `(robotId, runId)` ... and records a task for the processor loop";
a task is "created when a run completes", starts pending with retry count 0,
and "registry keys (`runId`) are unique; re-enqueuing the same `runId`
overwrites its entry". Overwriting an existing JavaScript object key keeps
its position; a new key is appended. -/
def enqueueTask (robotId : String) (runId : String) (reg : Registry) : Registry :=
  let task : GoogleSheetUpdateTask :=
    { robotId := robotId, runId := runId, status := TaskStatus.pending, retries := 0 }
  if reg.any (fun e => e.1 = runId) then
    reg.map (fun e => if e.1 = runId then (runId, task) else e)
  else
    reg ++ [(runId, task)]

/-- The registry states reachable from the initially empty
`googleSheetUpdateTasks` object by enqueues and processor scans. -/
inductive Reachable (attempt : String → String → Except String Unit) : Registry → Prop where
  | init : Reachable attempt []
  | enqueue (robotId runId : String) {reg : Registry} :
      Reachable attempt reg → Reachable attempt (enqueueTask robotId runId reg)
  | scan {reg : Registry} :
      Reachable attempt reg → Reachable attempt (scanStep attempt reg)

/-- Follows the spec's words for the row-building claim: a data row's values
"ordered to match the header key order" — for each header key, the row's value
at that key. -/
def valuesInHeaderOrder (headers : List String) (row : JObj) : List JVal :=
  headers.filterMap (fun k => alookup k row)

/-! ### Concrete fixtures used by witnesses and counterexamples -/

/-- An attempt that always returns normally. -/
def alwaysOk : String → String → Except String Unit := fun _ _ => Except.ok ()

/-- An attempt that always throws. -/
def alwaysErr : String → String → Except String Unit := fun _ _ => Except.error "boom"

/-- A pending task with no failed attempts yet. -/
def taskPending0 : GoogleSheetUpdateTask :=
  { robotId := "robot-1", runId := "run-1", status := TaskStatus.pending, retries := 0 }

/-- A pending task with two failed attempts. -/
def taskPending2 : GoogleSheetUpdateTask :=
  { robotId := "robot-1", runId := "run-1", status := TaskStatus.pending, retries := 2 }

/-- A pending task with three failed attempts. -/
def taskPending3 : GoogleSheetUpdateTask :=
  { robotId := "robot-1", runId := "run-1", status := TaskStatus.pending, retries := 3 }

/-- A pending task that has exhausted `MAX_RETRIES`. -/
def taskPending5 : GoogleSheetUpdateTask :=
  { robotId := "robot-1", runId := "run-1", status := TaskStatus.pending, retries := 5 }

/-- The failed form of `taskPending5`. -/
def taskFailedRun1 : GoogleSheetUpdateTask :=
  { robotId := "robot-1", runId := "run-1", status := TaskStatus.failed, retries := 5 }

/-- A task already marked failed, under key `run-2`. -/
def taskFailed5 : GoogleSheetUpdateTask :=
  { robotId := "robot-1", runId := "run-2", status := TaskStatus.failed, retries := 5 }

/-- A registry with one pending and one failed task. -/
def regTwoTasks : Registry := [("run-1", taskPending0), ("run-2", taskFailed5)]

/-- A registry containing only a failed task. -/
def regFailedOnly : Registry := [("run-2", taskFailed5)]

/-- A fully configured google_sheets integration. -/
def gsConfigured : GoogleSheetsIntegration :=
  { email := some "user@example.com", sheet_id := some "sheet-1", sheet_name := some "Sheet1",
    access_token := some "access-1", refresh_token := some "refresh-1" }

/-- An integrations object with the configured google_sheets plus an unrelated field. -/
def intsConfigured : Integrations :=
  { google_sheets := some gsConfigured, other := [("airtable", "cfg")] }

/-- A robot with a fully configured google_sheets integration. -/
def robotConfigured : RobotRecord := { integrations := some intsConfigured }

/-- The configured integration with its email removed. -/
def gsNoEmail : GoogleSheetsIntegration := { gsConfigured with email := none }

/-- A robot whose google_sheets integration lacks an email. -/
def robotNoEmail : RobotRecord :=
  { integrations := some { google_sheets := some gsNoEmail, other := [] } }

/-- The data row `{a: 1, b: 2}`. -/
def rowA1B2 : JObj := [("a", JVal.num 1), ("b", JVal.num 2)]

/-- The data row `{a: 3, b: 4}`. -/
def rowA3B4 : JObj := [("a", JVal.num 3), ("b", JVal.num 4)]

/-- The data row `{b: 4, a: 3}`: same properties as `rowA3B4`, listed in the
opposite insertion order. -/
def rowB4A3 : JObj := [("b", JVal.num 4), ("a", JVal.num 3)]

/-- A successful run with `serializableOutput["item-0"] = [{a:1,b:2},{a:3,b:4}]`. -/
def runStructured : RunRecord :=
  { status := "success", serializableOutput := some [("item-0", [rowA1B2, rowA3B4])],
    binaryOutput := none }

/-- A successful run whose second structured row lists its keys in the order
`b, a`. -/
def runMixedOrder : RunRecord :=
  { status := "success", serializableOutput := some [("item-0", [rowA1B2, rowB4A3])],
    binaryOutput := none }

/-- A successful run with only `binaryOutput["item-0"] = "https://x/y.png"`. -/
def runScreenshot : RunRecord :=
  { status := "success", serializableOutput := none,
    binaryOutput := some [("item-0", "https://x/y.png")] }

/-- An environment with the three runs above, the configured robot under
`robot-1`, the email-less robot under `robot-2`, and an append call that
returns HTTP 200. -/
def envOk : Env :=
  { runStore := fun id =>
      if id = "run-1" then some runStructured
      else if id = "run-5" then some runMixedOrder
      else if id = "run-2" then some runScreenshot
      else none,
    robotStore := fun id =>
      if id = "robot-1" then some robotConfigured
      else if id = "robot-2" then some robotNoEmail
      else none,
    appendResult := Except.ok 200 }

/-- The same environment, with an append call that rejects. -/
def envAppendFails : Env := { envOk with appendResult := Except.error "Network error" }

/-- A token refresh event carrying both a new access token and a new refresh
token. -/
def tokensBoth : TokenPayload :=
  { access_token := some "access-2", refresh_token := some "refresh-2" }

/-! ### Helper lemmas -/

theorem update_fst_ok (env : Env) (robotId runId : String) :
    (updateGoogleSheet env robotId runId).1 = Except.ok () := by
  unfold updateGoogleSheet
  cases h : (updateGoogleSheetBody env robotId runId).1 <;> simp [h]

theorem alookup_cons_ne {α : Type} (k k' : String) (v : α) (rest : List (String × α))
    (h : k ≠ k') : alookup k ((k', v) :: rest) = alookup k rest := by
  simp [alookup, h]

theorem valuesInHeaderOrder_eq_map_snd (row : JObj) :
    (row.map Prod.fst).Nodup →
    valuesInHeaderOrder (row.map Prod.fst) row = row.map Prod.snd := by
  induction row with
  | nil => intro _; rfl
  | cons q rest ih =>
    intro hnd
    obtain ⟨k0, v0⟩ := q
    simp only [List.map_cons, List.nodup_cons] at hnd
    obtain ⟨hq, htail⟩ := hnd
    simp only [valuesInHeaderOrder, List.map_cons, List.filterMap_cons]
    have h1 : alookup k0 ((k0, v0) :: rest) = some v0 := by simp [alookup]
    rw [h1]
    have h2 : (rest.map Prod.fst).filterMap (fun k => alookup k ((k0, v0) :: rest)) =
        (rest.map Prod.fst).filterMap (fun k => alookup k rest) :=
      List.filterMap_congr (fun k hk =>
        alookup_cons_ne k k0 v0 rest (fun heq => hq (heq ▸ hk)))
    rw [h2]
    have h3 := ih htail
    rw [valuesInHeaderOrder] at h3
    rw [h3]

theorem procEntry_not_pending (attempt : String → String → Except String Unit)
    (e : String × GoogleSheetUpdateTask) (h : ¬ e.2.status = TaskStatus.pending) :
    procEntry attempt e = some e := by
  simp [procEntry, h]

theorem procEntry_some_cases (attempt : String → String → Except String Unit)
    (e e' : String × GoogleSheetUpdateTask) (h : procEntry attempt e = some e') :
    (¬ e.2.status = TaskStatus.pending ∧ e' = e) ∨
    (e.2.status = TaskStatus.pending ∧ e.2.retries < MAX_RETRIES ∧
      e' = (e.1, { e.2 with retries := e.2.retries + 1 })) ∨
    (e.2.status = TaskStatus.pending ∧ MAX_RETRIES ≤ e.2.retries ∧
      e' = (e.1, { e.2 with status := TaskStatus.failed })) := by
  by_cases hp : e.2.status = TaskStatus.pending
  · unfold procEntry at h
    rw [if_pos hp] at h
    cases hatt : attempt e.2.robotId e.2.runId with
    | ok u => rw [hatt] at h; cases h
    | error msg =>
      rw [hatt] at h
      by_cases hr : e.2.retries < MAX_RETRIES
      · rw [if_pos hr] at h
        exact Or.inr (Or.inl ⟨hp, hr, (Option.some_inj.mp h).symm⟩)
      · rw [if_neg hr] at h
        exact Or.inr (Or.inr ⟨hp, Nat.le_of_not_lt hr, (Option.some_inj.mp h).symm⟩)
  · rw [procEntry_not_pending attempt e hp] at h
    exact Or.inl ⟨hp, (Option.some_inj.mp h).symm⟩

theorem mem_scanStep (attempt : String → String → Except String Unit)
    (reg : Registry) (e' : String × GoogleSheetUpdateTask) :
    e' ∈ scanStep attempt reg ↔ ∃ e ∈ reg, procEntry attempt e = some e' := by
  simp [scanStep, List.mem_filterMap]

theorem scanStep_retries_le (attempt : String → String → Except String Unit)
    (reg : Registry) (hb : ∀ e ∈ reg, e.2.retries ≤ MAX_RETRIES) :
    ∀ e ∈ scanStep attempt reg, e.2.retries ≤ MAX_RETRIES := by
  intro e' he'
  obtain ⟨e, he, hpe⟩ := (mem_scanStep attempt reg e').mp he'
  rcases procEntry_some_cases attempt e e' hpe with ⟨_, h⟩ | ⟨_, hr, h⟩ | ⟨_, _, h⟩
  · exact h ▸ hb e he
  · subst h; exact hr
  · subst h; exact hb e he

theorem scanStep_keeps_failed (attempt : String → String → Except String Unit)
    (reg : Registry) (k : String) (t : GoogleSheetUpdateTask)
    (hmem : (k, t) ∈ reg) (hf : t.status = TaskStatus.failed) :
    (k, t) ∈ scanStep attempt reg := by
  refine (mem_scanStep attempt reg (k, t)).mpr ⟨(k, t), hmem, ?_⟩
  exact procEntry_not_pending attempt (k, t) (by simp [hf])

theorem scanStep_pending_source (attempt : String → String → Except String Unit)
    (reg : Registry) (e' : String × GoogleSheetUpdateTask)
    (he' : e' ∈ scanStep attempt reg) (hp : e'.2.status = TaskStatus.pending) :
    ∃ e ∈ reg, e.2.status = TaskStatus.pending ∧ e.2.retries < MAX_RETRIES ∧
      e'.2.retries = e.2.retries + 1 := by
  obtain ⟨e, he, hpe⟩ := (mem_scanStep attempt reg e').mp he'
  rcases procEntry_some_cases attempt e e' hpe with ⟨hnp, h⟩ | ⟨hep, hr, h⟩ | ⟨_, _, h⟩
  · exact absurd (h ▸ hp) hnp
  · exact ⟨e, he, hep, hr, by rw [h]⟩
  · subst h; cases hp

theorem iterate_pending_retries (attempt : String → String → Except String Unit)
    (n : Nat) (reg : Registry) :
    ∀ e ∈ (scanStep attempt)^[n] reg, e.2.status = TaskStatus.pending →
      n ≤ e.2.retries ∧ (1 ≤ n → e.2.retries ≤ MAX_RETRIES) := by
  induction n generalizing reg with
  | zero => intro e _ _; exact ⟨Nat.zero_le _, fun h => absurd h (by omega)⟩
  | succ m ih =>
    intro e he hp
    rw [Function.iterate_succ_apply'] at he
    obtain ⟨e₀, he₀, hp₀, hr₀, heq⟩ :=
      scanStep_pending_source attempt ((scanStep attempt)^[m] reg) e he hp
    have := (ih reg e₀ he₀ hp₀).1
    constructor
    · omega
    · intro _
      have : MAX_RETRIES = 5 := rfl
      omega

theorem no_pending_after_iterations (attempt : String → String → Except String Unit)
    (reg : Registry) :
    hasPendingTasks ((scanStep attempt)^[MAX_RETRIES + 1] reg) = false := by
  rw [hasPendingTasks, List.any_eq_false]
  intro e he
  simp only [decide_eq_true_eq]
  intro hp
  have := iterate_pending_retries attempt (MAX_RETRIES + 1) reg e he hp
  omega

theorem loop_isSome_of_no_pending_at (attempt : String → String → Except String Unit)
    (fuel : Nat) :
    ∀ reg : Registry, hasPendingTasks ((scanStep attempt)^[fuel] reg) = false →
      (processGoogleSheetUpdates attempt (fuel + 1) reg).isSome = true := by
  induction fuel with
  | zero =>
    intro reg h
    simp only [Function.iterate_zero, id] at h
    simp [processGoogleSheetUpdates, h]
  | succ m ih =>
    intro reg h
    rw [Function.iterate_succ_apply] at h
    by_cases hp : hasPendingTasks reg
    · simp only [processGoogleSheetUpdates, hp, if_pos]
      exact ih (scanStep attempt reg) h
    · simp [processGoogleSheetUpdates, hp]

/-! ### Claims about the Update Processor -/

/-- C2: each Update Processor step on a pending task follows the state machine:
a successful attempt deletes the entry; a failed attempt with
`retries < MAX_RETRIES` increments `retries` and keeps the task pending; a
failed attempt with `retries ≥ MAX_RETRIES` sets the status to `failed` and
keeps the entry; a task with status `failed` is left exactly as it is,
whatever the attempt function would do. -/
theorem claim_C2_processor_state_machine (attempt : String → String → Except String Unit)
    (k : String) (t : GoogleSheetUpdateTask) :
    (t.status = TaskStatus.pending → attempt t.robotId t.runId = Except.ok () →
        procEntry attempt (k, t) = none) ∧
    (t.status = TaskStatus.pending → ∀ msg, attempt t.robotId t.runId = Except.error msg →
        t.retries < MAX_RETRIES →
        procEntry attempt (k, t) = some (k, { t with retries := t.retries + 1 })) ∧
    (t.status = TaskStatus.pending → ∀ msg, attempt t.robotId t.runId = Except.error msg →
        MAX_RETRIES ≤ t.retries →
        procEntry attempt (k, t) = some (k, { t with status := TaskStatus.failed })) ∧
    (t.status = TaskStatus.failed →
        ∀ attempt2 : String → String → Except String Unit, procEntry attempt2 (k, t) = some (k, t)) := by
  refine ⟨?_, ?_, ?_, ?_⟩
  · intro hp hok
    simp [procEntry, hp, hok]
  · intro hp msg herr hlt
    simp [procEntry, hp, herr, hlt]
  · intro hp msg herr hge
    simp [procEntry, hp, herr, Nat.not_lt.mpr hge]
  · intro hf attempt2
    exact procEntry_not_pending attempt2 (k, t) (by simp [hf])

/-- Witness for C2 at concrete inputs: success deletes; failure below the bound
increments; failure at the bound marks failed; a failed task is untouched. -/
theorem claim_C2_witness :
    procEntry alwaysOk ("run-1", taskPending0) = none ∧
    procEntry alwaysErr ("run-1", taskPending2) = some ("run-1", taskPending3) ∧
    procEntry alwaysErr ("run-1", taskPending5) = some ("run-1", taskFailedRun1) ∧
    procEntry alwaysErr ("run-2", taskFailed5) = some ("run-2", taskFailed5) := by
  refine ⟨?_, ?_, ?_, ?_⟩
  · exact (claim_C2_processor_state_machine alwaysOk "run-1" taskPending0).1 rfl rfl
  · exact (claim_C2_processor_state_machine alwaysErr "run-1" taskPending2).2.1
      rfl "boom" rfl (by decide)
  · exact (claim_C2_processor_state_machine alwaysErr "run-1" taskPending5).2.2.1
      rfl "boom" rfl (by decide)
  · exact (claim_C2_processor_state_machine alwaysErr "run-2" taskFailed5).2.2.2
      rfl alwaysErr

/-- C4: over any number of processor scans, a registry whose tasks all have
`retries ≤ MAX_RETRIES` keeps that bound, and an entry with status `failed`
stays in the registry unchanged (in particular it never goes back to pending). -/
theorem claim_C4_retry_bound_and_failed_terminal
    (attempt : String → String → Except String Unit) (reg : Registry) (n : Nat)
    (hb : ∀ e ∈ reg, e.2.retries ≤ MAX_RETRIES) :
    (∀ e ∈ (scanStep attempt)^[n] reg, e.2.retries ≤ MAX_RETRIES) ∧
    (∀ (k : String) (t : GoogleSheetUpdateTask),
      (k, t) ∈ reg → t.status = TaskStatus.failed → (k, t) ∈ (scanStep attempt)^[n] reg) := by
  induction n with
  | zero => exact ⟨hb, fun k t hm _ => hm⟩
  | succ m ih =>
    constructor
    · rw [Function.iterate_succ_apply']
      exact scanStep_retries_le attempt _ ih.1
    · intro k t hm hf
      rw [Function.iterate_succ_apply']
      exact scanStep_keeps_failed attempt _ k t (ih.2 k t hm hf) hf

/-- Witness for C4 at a concrete registry (one pending task, one failed task),
an always-failing attempt, and three scans. -/
theorem claim_C4_witness :
    (∀ e ∈ (scanStep alwaysErr)^[3] regTwoTasks, e.2.retries ≤ MAX_RETRIES) ∧
    (∀ (k : String) (t : GoogleSheetUpdateTask), (k, t) ∈ regTwoTasks →
      t.status = TaskStatus.failed → (k, t) ∈ (scanStep alwaysErr)^[3] regTwoTasks) :=
  claim_C4_retry_bound_and_failed_terminal alwaysErr regTwoTasks 3 (by decide)

/-- C6: the processor loop's exit test: the scan's `hasPendingTasks` flag is
false exactly when no registry entry has status `pending` (failed entries are
irrelevant); when it is false the loop returns right after that scan; the loop
always exits within `MAX_RETRIES + 2` scans; and the inter-scan delay is a
fixed 5000 milliseconds. -/
theorem claim_C6_loop_exit (attempt : String → String → Except String Unit) (reg : Registry) :
    (hasPendingTasks reg = false ↔ ∀ e ∈ reg, e.2.status ≠ TaskStatus.pending) ∧
    (∀ fuel, hasPendingTasks reg = false →
        processGoogleSheetUpdates attempt (fuel + 1) reg = some (scanStep attempt reg)) ∧
    (processGoogleSheetUpdates attempt (MAX_RETRIES + 2) reg).isSome = true ∧
    pollDelayMs = 5000 := by
  refine ⟨?_, ?_, ?_, rfl⟩
  · rw [hasPendingTasks, List.any_eq_false]
    constructor
    · intro h e he
      have := h e he
      simpa using this
    · intro h e he
      simpa using h e he
  · intro fuel h
    simp [processGoogleSheetUpdates, h]
  · exact loop_isSome_of_no_pending_at attempt (MAX_RETRIES + 1) reg
      (no_pending_after_iterations attempt reg)

/-- Witness for C6 at a concrete registry containing only a failed task: the
flag is false although a failed entry remains, and the loop exits on its first
scan, leaving the failed entry in place. -/
theorem claim_C6_witness :
    (hasPendingTasks regFailedOnly = false ↔
      ∀ e ∈ regFailedOnly, e.2.status ≠ TaskStatus.pending) ∧
    processGoogleSheetUpdates alwaysErr 1 regFailedOnly =
      some (scanStep alwaysErr regFailedOnly) ∧
    (processGoogleSheetUpdates alwaysErr (MAX_RETRIES + 2) regFailedOnly).isSome = true ∧
    pollDelayMs = 5000 := by
  refine ⟨?_, ?_, ?_, ?_⟩
  · exact (claim_C6_loop_exit alwaysErr regFailedOnly).1
  · exact (claim_C6_loop_exit alwaysErr regFailedOnly).2.1 0 (by decide)
  · exact (claim_C6_loop_exit alwaysErr regFailedOnly).2.2.1
  · exact (claim_C6_loop_exit alwaysErr regFailedOnly).2.2.2

/-- C9: a pending task whose attempt returns normally is deleted from the
registry in the same step, and no registry state reachable from the empty
registry by enqueues and scans contains an entry with status `completed`. -/
theorem claim_C9_no_completed_entries (attempt : String → String → Except String Unit) :
    (∀ (k : String) (t : GoogleSheetUpdateTask), t.status = TaskStatus.pending →
        attempt t.robotId t.runId = Except.ok () → procEntry attempt (k, t) = none) ∧
    (∀ reg, Reachable attempt reg → ∀ e ∈ reg, e.2.status ≠ TaskStatus.completed) := by
  constructor
  · intro k t hp hok
    simp [procEntry, hp, hok]
  · intro reg hreach
    induction hreach with
    | init => intro e he; cases he
    | enqueue robotId runId hprev ih =>
      intro e he
      simp only [enqueueTask] at he
      split at he
      · obtain ⟨e₀, he₀, heq⟩ := List.mem_map.mp he
        split at heq
        · rw [← heq]
          simp
        · exact heq ▸ ih e₀ he₀
      · rcases List.mem_append.mp he with h | h
        · exact ih e h
        · rcases List.mem_singleton.mp h with rfl
          simp
    | scan hprev ih =>
      intro e he
      obtain ⟨e₀, he₀, hpe⟩ := (mem_scanStep attempt _ e).mp he
      rcases procEntry_some_cases attempt e₀ e hpe with ⟨_, h⟩ | ⟨_, _, h⟩ | ⟨_, _, h⟩
      · exact h ▸ ih e₀ he₀
      · subst h
        intro hc
        exact ih e₀ he₀ (by simpa using hc)
      · subst h
        simp

/-- Witness for C9: a concrete successful deletion, and the no-completed
invariant at a concrete reachable registry (enqueue one task, then scan). -/
theorem claim_C9_witness :
    procEntry (fun _ _ => Except.ok ())
      ("run-1", { robotId := "robot-1", runId := "run-1",
                  status := TaskStatus.pending, retries := 0 }) = none ∧
    (∀ e ∈ scanStep (fun _ _ => Except.ok ()) (enqueueTask "robot-1" "run-1" []),
      e.2.status ≠ TaskStatus.completed) := by
  constructor
  · exact (claim_C9_no_completed_entries (fun _ _ => Except.ok ())).1 "run-1" _ rfl rfl
  · exact (claim_C9_no_completed_entries (fun _ _ => Except.ok ())).2 _
      (Reachable.scan (Reachable.enqueue "robot-1" "run-1" Reachable.init))

/-! ### Claims about the Sheet Writer -/

/-- C3: `updateGoogleSheet` returns normally for every environment, robot id
and run id — its catch-all `catch` only logs — and therefore the processor
step on any pending task attempted via `updateGoogleSheet` always takes the
success path and deletes the task: the catch branch of
`processGoogleSheetUpdates` is unreachable. -/
theorem claim_C3_update_never_throws (env : Env) (robotId runId : String) :
    (updateGoogleSheet env robotId runId).1 = Except.ok () ∧
    (∀ (k : String) (t : GoogleSheetUpdateTask), t.status = TaskStatus.pending →
      procEntry (fun a b => (updateGoogleSheet env a b).1) (k, t) = none) := by
  refine ⟨update_fst_ok env robotId runId, ?_⟩
  intro k t ht
  simp [procEntry, ht, update_fst_ok]

/-- Witness for C3 at a concrete environment and pending task. -/
theorem claim_C3_witness :
    (updateGoogleSheet envOk "robot-1" "run-1").1 = Except.ok () ∧
    procEntry (fun a b => (updateGoogleSheet envOk a b).1) ("run-1", taskPending0) = none := by
  refine ⟨(claim_C3_update_never_throws envOk "robot-1" "run-1").1, ?_⟩
  exact (claim_C3_update_never_throws envOk "robot-1" "run-1").2 "run-1" taskPending0 rfl

/-- C1: against the claim, a failing underlying write does not reach the
processor's retry accounting: with a configured robot and run, an append call
that rejects makes `writeDataToSheet` rethrow and the failure reaches
`updateGoogleSheet`'s catch-all, which swallows it — so the processor's step
on that pending task takes the success path and deletes the task instead of
the catch (retry/failed) path. -/
theorem claim_C1_write_failure_not_propagated :
    (writeDataToSheet envAppendFails "robot-1" "sheet-1" [[JVal.num 1]]).1 =
      Except.error "Network error" ∧
    (updateGoogleSheetBody envAppendFails "robot-1" "run-1").1 =
      Except.error "Network error" ∧
    procEntry (fun a b => (updateGoogleSheet envAppendFails a b).1)
      ("run-1", taskPending0) = none := by
  exact ⟨rfl, rfl, rfl⟩

/-- C8: when the stored robot's google_sheets integration lacks `sheet_id` or
lacks `email`, `updateGoogleSheet` reaches no append call and returns normally,
whatever the run store holds. -/
theorem claim_C8_not_configured_skips_append (env : Env) (robotId runId : String)
    (robot : RobotRecord) (hr : env.robotStore robotId = some robot)
    (h : gsEmail robot = none ∨ gsSheetId robot = none) :
    updateGoogleSheet env robotId runId = (Except.ok (), none) := by
  have hguard : (truthyS (gsEmail robot) && truthyS (gsSheetId robot)) = false := by
    rcases h with h | h <;> simp [h, truthyS]
  unfold updateGoogleSheet updateGoogleSheetBody
  cases hrun : env.runStore runId with
  | none => simp
  | some plainRun =>
    by_cases hst : plainRun.status = "success"
    · simp [hst, hr, hguard]
    · simp [hst]

/-- Witness for C8: the robot stored under `robot-2` lacks an email, so the
update path returns normally without reaching an append call. -/
theorem claim_C8_witness :
    updateGoogleSheet envOk "robot-2" "run-1" = (Except.ok (), none) :=
  claim_C8_not_configured_skips_append envOk "robot-2" "run-1" robotNoEmail rfl (Or.inl rfl)

/-- C10: for a successful run with no structured output entries and
`binaryOutput["item-0"] = "https://x/y.png"`, with a configured robot and an
append call that returns, the rows handed to the append call are the single
synthetic `Screenshot URL` column with the URL as its one data row. -/
theorem claim_C10_binary_output_rows (env : Env) (robotId runId : String)
    (plainRun : RunRecord) (robot : RobotRecord) (status : Nat)
    (h1 : env.runStore runId = some plainRun)
    (h2 : plainRun.status = "success")
    (h3 : plainRun.serializableOutput = none ∨ plainRun.serializableOutput = some [])
    (h4 : plainRun.binaryOutput.bind (alookup "item-0") = some "https://x/y.png")
    (h5 : env.robotStore robotId = some robot)
    (h6 : truthyS (gsEmail robot) = true)
    (h7 : truthyS (gsSheetId robot) = true)
    (h8 : truthyS (gsAccessToken robot) = true)
    (h9 : truthyS (gsRefreshToken robot) = true)
    (h10 : env.appendResult = Except.ok status) :
    updateGoogleSheet env robotId runId =
      (Except.ok (), some [[JVal.str "Screenshot URL"], [JVal.str "https://x/y.png"]]) := by
  have hhs : (plainRun.serializableOutput.isSome &&
      decide (0 < (plainRun.serializableOutput.getD []).length)) = false := by
    rcases h3 with h | h <;> simp [h]
  have hurl : truthyS (some "https://x/y.png") = true := rfl
  unfold updateGoogleSheet updateGoogleSheetBody writeDataToSheet
  simp [h1, h2, h4, h5, h6, h7, h8, h9, h10, hhs, hurl]

/-- Witness for C10 at the concrete environment. -/
theorem claim_C10_witness :
    updateGoogleSheet envOk "robot-1" "run-2" =
      (Except.ok (), some [[JVal.str "Screenshot URL"], [JVal.str "https://x/y.png"]]) :=
  claim_C10_binary_output_rows envOk "robot-1" "run-2" runScreenshot robotConfigured 200
    rfl rfl (Or.inl rfl) rfl rfl rfl rfl rfl rfl rfl

/-- C5 counterexample: the claim's general rule fails on the code. For the run
whose second data row lists its keys in the order `b, a`, the code emits that
row's values in the row's own insertion order (`Object.values`), not reordered
to match the header key order: it appends `[[a,b],[1,2],[4,3]]`, while values
"ordered to match the header key order" would be `[[a,b],[1,2],[3,4]]`. -/
theorem claim_C5_counterexample :
    (updateGoogleSheet envOk "robot-1" "run-5").2 =
      some [[JVal.str "a", JVal.str "b"], [JVal.num 1, JVal.num 2],
        [JVal.num 4, JVal.num 3]] ∧
    (rowA1B2.map Prod.fst).map JVal.str ::
        [rowA1B2, rowB4A3].map (valuesInHeaderOrder (rowA1B2.map Prod.fst)) =
      [[JVal.str "a", JVal.str "b"], [JVal.num 1, JVal.num 2], [JVal.num 3, JVal.num 4]] ∧
    ¬ ((updateGoogleSheet envOk "robot-1" "run-5").2 =
      some ((rowA1B2.map Prod.fst).map JVal.str ::
        [rowA1B2, rowB4A3].map (valuesInHeaderOrder (rowA1B2.map Prod.fst)))) := by
  exact ⟨rfl, rfl, by decide⟩

/-- C5 amended: with structured output whose every row lists its keys in the
same sequence as the first row (JavaScript object keys are unique within a
row), the appended rows are the header row — the first row's keys — followed
by one row per data row whose values then do match the header key order; in
particular the spec's example `[{a:1,b:2},{a:3,b:4}] ↦ [[a,b],[1,2],[3,4]]`
holds. -/
theorem claim_C5_amended_structured_rows (env : Env) (robotId runId : String)
    (plainRun : RunRecord) (robot : RobotRecord) (status : Nat)
    (so : List (String × List JObj)) (row0 : JObj) (rest : List JObj)
    (h1 : env.runStore runId = some plainRun)
    (h2 : plainRun.status = "success")
    (h3 : plainRun.serializableOutput = some so)
    (h4 : 0 < so.length)
    (h5 : alookup "item-0" so = some (row0 :: rest))
    (h6 : env.robotStore robotId = some robot)
    (h7 : truthyS (gsEmail robot) = true)
    (h8 : truthyS (gsSheetId robot) = true)
    (h9 : truthyS (gsAccessToken robot) = true)
    (h10 : truthyS (gsRefreshToken robot) = true)
    (h11 : env.appendResult = Except.ok status)
    (hkeys : ∀ row ∈ row0 :: rest, row.map Prod.fst = row0.map Prod.fst)
    (hnodup : (row0.map Prod.fst).Nodup) :
    updateGoogleSheet env robotId runId =
      (Except.ok (), some ((row0.map Prod.fst).map JVal.str ::
        (row0 :: rest).map (valuesInHeaderOrder (row0.map Prod.fst)))) := by
  have hrows : (row0 :: rest).map (fun row => row.map Prod.snd) =
      (row0 :: rest).map (valuesInHeaderOrder (row0.map Prod.fst)) := by
    apply List.map_congr_left
    intro row hrow
    have hk := hkeys row hrow
    have := valuesInHeaderOrder_eq_map_snd row (by rw [hk]; exact hnodup)
    rw [hk] at this
    exact this.symm
  have h4d : decide (0 < so.length) = true := decide_eq_true h4
  unfold updateGoogleSheet updateGoogleSheetBody writeDataToSheet
  simp [h1, h2, h3, h4d, h5, h6, h7, h8, h9, h10, h11, ← hrows]

/-- Witness for C5 (amended) at the spec's concrete example:
`serializableOutput["item-0"] = [{a:1,b:2},{a:3,b:4}]` yields appended rows
`[["a","b"],[1,2],[3,4]]`. -/
theorem claim_C5_witness :
    updateGoogleSheet envOk "robot-1" "run-1" =
      (Except.ok (), some [[JVal.str "a", JVal.str "b"], [JVal.num 1, JVal.num 2],
        [JVal.num 3, JVal.num 4]]) :=
  claim_C5_amended_structured_rows envOk "robot-1" "run-1" runStructured robotConfigured 200
    [("item-0", [rowA1B2, rowA3B4])] rowA1B2 [rowA3B4]
    rfl rfl rfl (by decide) rfl rfl rfl rfl rfl rfl rfl (by decide) (by decide)

/-- C7: a token refresh event that (truthily) supplies a new refresh token
and/or access token updates exactly those fields of the persisted
google_sheets integration; `email`, `sheet_id`, `sheet_name` and the
integration fields outside `google_sheets` are unchanged. -/
theorem claim_C7_token_refresh_frame (robot : RobotRecord) (tokens : TokenPayload) :
    (truthyS tokens.refresh_token = true →
      gsRefreshToken (onTokensHandler robot tokens) = tokens.refresh_token) ∧
    (truthyS tokens.access_token = true →
      gsAccessToken (onTokensHandler robot tokens) = tokens.access_token) ∧
    gsEmail (onTokensHandler robot tokens) = gsEmail robot ∧
    gsSheetId (onTokensHandler robot tokens) = gsSheetId robot ∧
    gsSheetName (onTokensHandler robot tokens) = gsSheetName robot ∧
    otherIntegrations (onTokensHandler robot tokens) = otherIntegrations robot := by
  obtain ⟨ints⟩ := robot
  cases hta : truthyS tokens.access_token <;> cases htr : truthyS tokens.refresh_token <;>
    rcases ints with _ | ⟨_ | g, other⟩ <;>
      simp [onTokensHandler, gsRefreshToken, gsAccessToken, gsEmail, gsSheetId,
        gsSheetName, otherIntegrations, gsOf, hta, htr]

/-- Witness for C7: refreshing the configured robot with a payload carrying
both tokens updates both token fields and leaves the rest unchanged. -/
theorem claim_C7_witness :
    gsRefreshToken (onTokensHandler robotConfigured tokensBoth) = some "refresh-2" ∧
    gsAccessToken (onTokensHandler robotConfigured tokensBoth) = some "access-2" ∧
    gsEmail (onTokensHandler robotConfigured tokensBoth) = gsEmail robotConfigured ∧
    gsSheetId (onTokensHandler robotConfigured tokensBoth) = gsSheetId robotConfigured ∧
    gsSheetName (onTokensHandler robotConfigured tokensBoth) = gsSheetName robotConfigured ∧
    otherIntegrations (onTokensHandler robotConfigured tokensBoth) =
      otherIntegrations robotConfigured := by
  refine ⟨?_, ?_, ?_, ?_, ?_, ?_⟩
  · exact (claim_C7_token_refresh_frame robotConfigured tokensBoth).1 (by decide)
  · exact (claim_C7_token_refresh_frame robotConfigured tokensBoth).2.1 (by decide)
  · exact (claim_C7_token_refresh_frame robotConfigured tokensBoth).2.2.1
  · exact (claim_C7_token_refresh_frame robotConfigured tokensBoth).2.2.2.1
  · exact (claim_C7_token_refresh_frame robotConfigured tokensBoth).2.2.2.2.1
  · exact (claim_C7_token_refresh_frame robotConfigured tokensBoth).2.2.2.2.2

end GSheet
